import Mathlib

/-!
Shallow embedding of the `scrape_gh` repository (files `src/extract.py` and
`src/cli.py`): data models, the single-artifact fetcher, the recursive
related-item traversal engine, the presentation formatter, the retrying
pull-request extractor, and the CLI Markdown converter.

Network collaborators (the Firecrawl `app.extract` call and the raw HTTP GET
used for diffs) are modelled as explicit function parameters; everything else
is translated directly from the Python source.  Python exceptions are
modelled with `Except` and the `PyErr` type; Python dicts are modelled as
ordered association lists `List (String × Val)`.
-/

namespace ScrapeGh

/-- Python exception kinds that occur in the source: `ValueError`,
`FirecrawlError`, `KeyError`, `TypeError`.  `msg` models `str(e)`
(for `KeyError` Python would add quotes around the key; we keep the bare
key, which is irrelevant to every theorem below). -/
inductive PyErr where
  | valueError (msg : String)
  | firecrawl (msg : String)
  | keyError (key : String)
  | typeError (msg : String)
deriving DecidableEq, Repr

def PyErr.msg : PyErr → String
  | .valueError m => m
  | .firecrawl m => m
  | .keyError k => k
  | .typeError m => m

/-- Does `needle` occur as a contiguous run inside the character list? -/
def charsContains : List Char → List Char → Bool
  | [], needle => needle.isEmpty
  | h :: rest, needle => needle.isPrefixOf (h :: rest) || charsContains rest needle

/-- `sub in s` for Python strings. -/
def strContains (s sub : String) : Bool :=
  charsContains s.data sub.data

/-- `s.startswith(pre)` for Python strings (character-list implementation). -/
def strStartsWith (s pre : String) : Bool :=
  pre.data.isPrefixOf s.data

/-- Drop the first `n` characters of a string. -/
def strDrop (s : String) (n : Nat) : String :=
  String.mk (s.data.drop n)

/-- Split a character list at every occurrence of `c` (Python `s.split(c)`
for a single-character separator). -/
def splitChar (c : Char) : List Char → List (List Char)
  | [] => [[]]
  | x :: xs =>
    match splitChar c xs with
    | [] => [[]]
    | r :: rs => if x = c then [] :: r :: rs else (x :: r) :: rs

/-- Split a string on `/`. -/
def strSplitSlash (s : String) : List String :=
  (splitChar '/' s.data).map String.mk

/-- The longest digit-only prefix of a string (what `\d+` captures in a
prefix match). -/
def digitsPrefix (s : String) : String :=
  String.mk (s.data.takeWhile Char.isDigit)

/-- Model of the pydantic `Comment` (extract.py lines 72-77). -/
structure Comment where
  author : String
  content : String
  created_at : String
  updated_at : Option String
deriving DecidableEq, Repr

/-- Model of the pydantic `Commit` (extract.py lines 79-84).  Note: the model
has fields `message`, `author`, `created_at`, `url` only — no SHA field. -/
structure Commit where
  message : String
  author : String
  created_at : String
  url : String
deriving DecidableEq, Repr

/-- Model of the pydantic `RelatedItem` (extract.py lines 86-91). -/
structure RelatedItem where
  type : String
  number : Option Int
  title : Option String
  url : String
deriving DecidableEq, Repr

/-- Model of the pydantic `GitHubIssue` (extract.py lines 93-103). -/
structure IssueData where
  title : String
  number : Int
  state : String
  author : String
  created_at : String
  updated_at : String
  comments : List Comment
  labels : List String
  related_items : List RelatedItem
deriving DecidableEq, Repr

/-- Model of the pydantic `GitHubPR` (extract.py lines 105-118). -/
structure PRData where
  title : String
  number : Int
  state : String
  author : String
  created_at : String
  updated_at : String
  merged_at : Option String
  comments : List Comment
  commits : List Commit
  file_changes : Option String
  labels : List String
  related_items : List RelatedItem
deriving DecidableEq, Repr

/-- `Union[GitHubIssue, GitHubPR]`. -/
inductive Artifact where
  | issue (d : IssueData)
  | pr (d : PRData)
deriving DecidableEq, Repr

def Artifact.related_items : Artifact → List RelatedItem
  | .issue d => d.related_items
  | .pr d => d.related_items

/-- `result["data"]["file_changes"] = diff_content` inside `extract_pr`
(extract.py line 186); the structured-extraction result is always a PR
record there. -/
def Artifact.setFileChanges : Artifact → String → Artifact
  | .pr d, diff => .pr { d with file_changes := some diff }
  | .issue d, _ => .issue d

/-- Python values as they appear in the dicts built by `format_for_llm` and
consumed by `convert_to_markdown`: strings, ints, `None`, lists, dicts
(ordered association lists). -/
inductive Val where
  | vstr (s : String)
  | vint (n : Int)
  | vnull
  | vlist (xs : List Val)
  | vdict (fields : List (String × Val))
deriving Repr

/-- Python `str(x)` for an `Optional[int]` interpolated into an f-string. -/
def pyOptIntStr : Option Int → String
  | none => "None"
  | some n => toString n

/-- Python `x or ''` for an `Optional[str]`. -/
def pyOrEmpty : Option String → String
  | none => ""
  | some s => s

/-- An `Optional[str]` stored into a dict. -/
def optVal : Option String → Val
  | none => .vnull
  | some s => .vstr s

/-- `f"{item.type} {item.number}: {item.title or ''} ({item.url})"`
(extract.py lines 262, 270, 285, 291, 325, 352). -/
def refString (item : RelatedItem) : String :=
  item.type ++ " " ++ pyOptIntStr item.number ++ ": " ++
    pyOrEmpty item.title ++ " (" ++ item.url ++ ")"

/-- `f"**{comment.author}** ({comment.created_at}):\n{comment.content}"`
(extract.py lines 319, 341). -/
def commentLine (c : Comment) : String :=
  "**" ++ c.author ++ "** (" ++ c.created_at ++ "):\n" ++ c.content

/-- `f"{commit.message} (by {commit.author} on {commit.created_at})"`
(extract.py line 345). -/
def commitLine (c : Commit) : String :=
  c.message ++ " (by " ++ c.author ++ " on " ++ c.created_at ++ ")"

/-- One entry of the `related_items` list in formatted output:
`{"reference": ref, "content": c}`. -/
def entryOf (ref : String) (c : Val) : Val :=
  .vdict [("reference", .vstr ref), ("content", c)]

/-- `format_for_llm` (extract.py lines 300-357).  Returns the Python dict as
an ordered association list.  The `[...] if content.related_items else []`
guard on the related-items comprehension is kept verbatim. -/
def format_for_llm : Artifact → List (String × Val)
  | .issue d =>
    [("type", .vstr "issue"),
     ("title", .vstr d.title),
     ("number", .vint d.number),
     ("state", .vstr d.state),
     ("author", .vstr d.author),
     ("created_at", .vstr d.created_at),
     ("conversation", .vlist (d.comments.map (fun c => .vstr (commentLine c)))),
     ("labels", .vlist (d.labels.map (fun l => .vstr l))),
     ("related_items", .vlist
        (if d.related_items.isEmpty then []
         else d.related_items.map (fun item => entryOf (refString item) .vnull)))]
  | .pr d =>
    [("type", .vstr "pull_request"),
     ("title", .vstr d.title),
     ("number", .vint d.number),
     ("state", .vstr d.state),
     ("author", .vstr d.author),
     ("created_at", .vstr d.created_at),
     ("merged_at", optVal d.merged_at),
     ("conversation", .vlist (d.comments.map (fun c => .vstr (commentLine c)))),
     ("commits", .vlist (d.commits.map (fun c => .vstr (commitLine c)))),
     ("file_changes", optVal d.file_changes),
     ("labels", .vlist (d.labels.map (fun l => .vstr l))),
     ("related_items", .vlist
        (if d.related_items.isEmpty then []
         else d.related_items.map (fun item => entryOf (refString item) .vnull)))]

/-- `d[key]` returning `none` when the key is absent (dict lookup). -/
def dictGet : List (String × Val) → String → Option Val
  | [], _ => none
  | (k, v) :: rest, key => if k = key then some v else dictGet rest key

/-- `d[key] = v`: replace the value at an existing key in place (keeping its
position, as Python dicts do), appending when absent. -/
def dictSet : List (String × Val) → String → Val → List (String × Val)
  | [], key, v => [(key, v)]
  | (k, w) :: rest, key, v =>
    if k = key then (key, v) :: rest else (k, w) :: dictSet rest key v

/-- `if include_types and item.type not in include_types` (extract.py
line 260): `None` and the empty list are both falsy, so neither filters. -/
def typeExcluded : Option (List String) → String → Bool
  | none, _ => false
  | some l, t => !l.isEmpty && !l.contains t

/-- The content attached to a related entry: `None` or the nested dict. -/
def contentVal : Option (List (String × Val)) → Val
  | none => .vnull
  | some d => .vdict d

/-- One iteration of the `for item in content.related_items` loop of
`extract_content_with_related` (extract.py lines 258-293).  The accumulator
carries the `related_with_content` list built so far together with the
current visited set; `trav` is the recursive call at depth `max_depth - 1`.
An exception raised by the recursive call is caught here: the reference is
kept with an error annotation and `content: None`, and the visited set keeps
every URL the failed branch inserted before raising. -/
def stepF
    (trav : String → List String →
      Except (PyErr × List String) (Option (List (String × Val)) × List String))
    (include_types : Option (List String))
    (acc : List Val × List String) (item : RelatedItem) :
    List Val × List String :=
  if typeExcluded include_types item.type then
    (acc.1 ++ [entryOf (refString item) .vnull], acc.2)
  else if acc.2.contains item.url then
    (acc.1 ++ [entryOf (refString item ++ " [already visited]") .vnull], acc.2)
  else
    match trav item.url acc.2 with
    | .ok (rc, v2) => (acc.1 ++ [entryOf (refString item) (contentVal rc)], v2)
    | .error (e, v2) =>
      (acc.1 ++ [entryOf (refString item ++ " [error: " ++ e.msg ++ "]") .vnull], v2)

/-- The body of `extract_content_with_related` (extract.py lines 239-298)
with the integer depth replaced by fuel `max (max_depth, 0)`: the source only
tests `max_depth <= 0` and recurses with `max_depth - 1`, so `fuel = 0` is
exactly `max_depth <= 0`.  The visited set is passed explicitly (Python
mutates one shared set); a fetch failure propagates as an exception carrying
the visited set as mutated so far (the URL is inserted *before* the fetch).
Returns `none` (Python `None`) when the URL was already visited. -/
def traverseF (fetch : String → Except PyErr Artifact)
    (include_types : Option (List String)) :
    Nat → String → List String →
      Except (PyErr × List String) (Option (List (String × Val)) × List String)
  | fuel, url, visited =>
    if visited.contains url then .ok (none, visited)
    else
      let visited2 := url :: visited
      match fetch url with
      | .error e => .error (e, visited2)
      | .ok content =>
        let formatted := format_for_llm content
        match fuel with
        | 0 => .ok (some formatted, visited2)
        | k + 1 =>
          let res := content.related_items.foldl
            (stepF (fun u w => traverseF fetch include_types k u w) include_types)
            ([], visited2)
          .ok (some (dictSet formatted "related_items" (.vlist res.1)), res.2)

/-- `extract_content` (extract.py lines 201-224).  The two network-bound
callees `extract_pr` and `extract_issue` are passed in as the parameters
`ep` and `ei`; every other branch raises `ValueError` before either is
invoked. -/
def extract_content (ep ei : String → Except PyErr Artifact) (url : String) :
    Except PyErr Artifact :=
  if !strStartsWith url "https://github.com/" then
    .error (.valueError "URL must be a GitHub URL")
  else if strContains url "/pull/" then ep url
  else if strContains url "/issues/" then ei url
  else .error (.valueError "URL must point to a GitHub issue or pull request")

/-- `extract_content_with_related` (extract.py lines 226-298), wired to
`extract_content` as in the source, with the `Int` depth argument of the
Python signature. -/
def extract_content_with_related (ep ei : String → Except PyErr Artifact)
    (url : String) (max_depth : Int) (include_types : Option (List String))
    (visited_urls : List String) :
    Except (PyErr × List String) (Option (List (String × Val)) × List String) :=
  traverseF (extract_content ep ei) include_types max_depth.toNat url visited_urls

/-- The URL parse done by `re.match(r"https://github\.com/([^/]+/[^/]+)/pull/(\d+)", url)`
in `get_da_diff` (extract.py line 17): a prefix match requiring the literal
host, two non-empty slash-free segments, the literal `pull` segment and a
non-empty run of digits (anything may follow the digits).  Returns the
captured `(path, pr_num)` groups. -/
def parse_pr_url (url : String) : Option (String × String) :=
  if strStartsWith url "https://github.com/" then
    match strSplitSlash (strDrop url 19) with
    | owner :: repo :: p :: numPart :: _ =>
      let digits := digitsPrefix numPart
      if owner ≠ "" && repo ≠ "" && p = "pull" && digits ≠ "" then
        some (owner ++ "/" ++ repo, digits)
      else none
    | _ => none
  else none

/-- `get_da_diff` (extract.py lines 13-27).  The HTTP GET is the parameter
`http`, returning Python `(resp.ok, resp.text)`. -/
def get_da_diff (http : String → Bool × String) (url : String) :
    Except PyErr String :=
  match parse_pr_url url with
  | none => .error (.valueError "Invalid GitHub pull request URL")
  | some (path, num) =>
    let diff_url := "http://patch-diff.githubusercontent.com/raw/" ++ path ++
      "/pull/" ++ num ++ ".diff"
    let resp := http diff_url
    if resp.1 then .ok resp.2
    else .error (.valueError ("Failed to retrieve diff: " ++ resp.2))

/-- The `except` classification of `extract_pr` (extract.py lines 189-199):
every exception raised inside the `try` block — including the `ValueError`
from a diff-retrieval failure — is re-raised as a `FirecrawlError` whose
message is chosen by substring-matching `str(e)`. -/
def classify_pr (url msg : String) : PyErr :=
  .firecrawl
    (if strContains msg "500" then
      "Firecrawl service error (500). This might be temporary, please try again in a few minutes. URL: " ++ url
    else if strContains msg "429" then
      "Rate limit exceeded. Please wait a few minutes before trying again. URL: " ++ url
    else if strContains msg "403" then
      "Access forbidden. Please check your API key and permissions. URL: " ++ url
    else if strContains msg "404" then
      "PR not found or private. Please check the URL and your permissions: " ++ url
    else "Error extracting PR: " ++ msg)

/-- One attempt of the body of `extract_pr` (extract.py lines 173-199):
structured extraction (the oracle `appx`, modelling `app.extract` plus the
parse into `GitHubPR`; its failures are classified), then the raw diff via
`get_da_diff` (whose `ValueError` is caught by the same `except` block and
classified identically), then `result["data"]["file_changes"] = diff`. -/
def extract_pr_once (appx : Except PyErr Artifact) (http : String → Bool × String)
    (url : String) : Except PyErr Artifact :=
  match appx with
  | .error e => .error (classify_pr url e.msg)
  | .ok record =>
    match get_da_diff http url with
    | .error e => .error (classify_pr url e.msg)
    | .ok diff => .ok (record.setFileChanges diff)

/-- The loop of the `retry_on_error` decorator (extract.py lines 40-62):
`remaining` further retries are allowed; `attempt` indexes the current try
(the network oracles are attempt-indexed, modelling that each retry repeats
the network calls).  When the last attempt fails the final `FirecrawlError`
wraps the last exception text. -/
def retryGo (func : Nat → Except PyErr α) (max_retries : Nat) :
    Nat → Nat → Except PyErr α
  | remaining, attempt =>
    match func attempt with
    | .ok a => .ok a
    | .error e =>
      match remaining with
      | 0 => .error (.firecrawl ("All " ++ toString (max_retries + 1) ++
          " attempts failed. Last error: " ++ e.msg))
      | r + 1 => retryGo func max_retries r (attempt + 1)

/-- `retry_on_error(max_retries)` applied to an attempt-indexed body:
attempts `0, 1, ..., max_retries`. -/
def retry_on_error (max_retries : Nat) (func : Nat → Except PyErr α) :
    Except PyErr α :=
  retryGo func max_retries max_retries 0

/-- `extract_pr` (extract.py lines 159-199) with its `@retry_on_error()`
decorator (default `max_retries = 3`, hence up to 4 attempts).  `appExtract`
and `http` are the attempt-indexed network oracles. -/
def extract_pr (appExtract : Nat → Except PyErr Artifact)
    (http : Nat → String → Bool × String) (url : String) :
    Except PyErr Artifact :=
  retry_on_error 3 (fun i => extract_pr_once (appExtract i) (http i) url)

/-!  ### The CLI Markdown converter (src/cli.py)  -/

mutual
/-- Python `repr` of a dict/list value as used when such a value is
interpolated into an f-string.  String escaping inside reprs is not
reproduced (no theorem below inspects these strings). -/
def pyRepr : Val → String
  | .vstr s => "\x27" ++ s ++ "\x27"
  | .vint n => toString n
  | .vnull => "None"
  | .vlist xs => "[" ++ String.intercalate ", " (pyReprList xs) ++ "]"
  | .vdict fields => "\x7b" ++ String.intercalate ", " (pyReprFields fields) ++ "\x7d"

def pyReprList : List Val → List String
  | [] => []
  | v :: rest => pyRepr v :: pyReprList rest

def pyReprFields : List (String × Val) → List String
  | [] => []
  | kv :: rest => ("\x27" ++ kv.1 ++ "\x27: " ++ pyRepr kv.2) :: pyReprFields rest
end

/-- Python `str(x)` (f-string interpolation): like `repr` except top-level
strings are unquoted. -/
def pyStr : Val → String
  | .vstr s => s
  | v => pyRepr v

/-- Python truthiness of a dict value. -/
def pyTruthy : Val → Bool
  | .vstr s => !s.isEmpty
  | .vint n => n != 0
  | .vnull => false
  | .vlist xs => !xs.isEmpty
  | .vdict fields => !fields.isEmpty

/-- `data[key]`, raising `KeyError` when absent. -/
def require (data : List (String × Val)) (key : String) : Except PyErr Val :=
  match dictGet data key with
  | some v => .ok v
  | none => .error (.keyError key)

/-- `v[key]` on an arbitrary value (raises `TypeError` unless it is a dict). -/
def getItem (v : Val) (key : String) : Except PyErr Val :=
  match v with
  | .vdict d => require d key
  | .vstr _ => .error (.typeError "string indices must be integers")
  | _ => .error (.typeError "object is not subscriptable")

/-- `for x in v`: lists iterate their elements, strings their characters,
everything else raises `TypeError`. -/
def pyIter : Val → Except PyErr (List Val)
  | .vlist xs => .ok xs
  | .vstr s => .ok (s.data.map (fun c => .vstr c.toString))
  | _ => .error (.typeError "object is not iterable")

/-- `_convert_issue_to_markdown` (cli.py lines 72-95), with dict reads in
source evaluation order; `data["description"]` is read right after the
`## Description` header is appended. -/
def convert_issue_to_markdown (data : List (String × Val)) :
    Except PyErr String := do
  let number ← require data "number"
  let title ← require data "title"
  let state ← require data "state"
  let author ← require data "author"
  let created ← require data "created_at"
  let md := "# Issue #" ++ pyStr number ++ ": " ++ pyStr title ++ "\n\n" ++
    "**State:** " ++ pyStr state ++ "  \n" ++
    "**Author:** " ++ pyStr author ++ "  \n" ++
    "**Created:** " ++ pyStr created ++ "  \n\n" ++
    "## Description\n\n"
  let desc ← require data "description"
  let md := md ++ pyStr desc ++ "\n\n"
  let labels ← require data "labels"
  let md ← if pyTruthy labels then do
      let ls ← pyIter labels
      pure (md ++ "## Labels\n\n" ++
        String.intercalate ", " (ls.map (fun l => "`" ++ pyStr l ++ "`")) ++ "\n\n")
    else pure md
  let conv ← require data "conversation"
  let citems ← pyIter conv
  let md := md ++ "## Conversation\n\n" ++
    String.join (citems.map (fun c => pyStr c ++ "\n\n---\n\n"))
  let rel ← require data "related_items"
  let md ← if pyTruthy rel then do
      let ritems ← pyIter rel
      pure (md ++ "## Related Items\n\n" ++
        String.join (ritems.map (fun item => "* " ++ pyStr item ++ "\n")))
    else pure md
  return md

/-- `_convert_pr_to_markdown` (cli.py lines 97-135), with dict reads in
source evaluation order; `data["merged_at"]` is read (and its truthiness
tested) before the `## Description` header, and `data["description"]` right
after it. -/
def convert_pr_to_markdown (data : List (String × Val)) :
    Except PyErr String := do
  let number ← require data "number"
  let title ← require data "title"
  let state ← require data "state"
  let author ← require data "author"
  let created ← require data "created_at"
  let merged ← require data "merged_at"
  let md := "# Pull Request #" ++ pyStr number ++ ": " ++ pyStr title ++ "\n\n" ++
    "**State:** " ++ pyStr state ++ "  \n" ++
    "**Author:** " ++ pyStr author ++ "  \n" ++
    "**Created:** " ++ pyStr created ++ "  \n" ++
    (if pyTruthy merged then "**Merged:** " ++ pyStr merged ++ "  \n\n" else "\n") ++
    "## Description\n\n"
  let desc ← require data "description"
  let md := md ++ pyStr desc ++ "\n\n"
  let labels ← require data "labels"
  let md ← if pyTruthy labels then do
      let ls ← pyIter labels
      pure (md ++ "## Labels\n\n" ++
        String.intercalate ", " (ls.map (fun l => "`" ++ pyStr l ++ "`")) ++ "\n\n")
    else pure md
  let conv ← require data "conversation"
  let citems ← pyIter conv
  let md := md ++ "## Conversation\n\n" ++
    String.join (citems.map (fun c => pyStr c ++ "\n\n---\n\n"))
  let commits ← require data "commits"
  let cs ← pyIter commits
  let md := md ++ "## Commits\n\n" ++
    String.join (cs.map (fun c => "* " ++ pyStr c ++ "\n")) ++ "\n"
  let fc ← require data "file_changes"
  let changes ← pyIter fc
  let md ← changes.foldlM (fun acc change => do
      let fn ← getItem change "filename"
      let st ← getItem change "status"
      let ch ← getItem change "changes"
      let acc := acc ++ "### " ++ pyStr fn ++ " (" ++ pyStr st ++ ", " ++
        pyStr ch ++ ")\n\n"
      let acc := match change with
        | .vdict d =>
          match dictGet d "patch" with
          | some p =>
            if pyTruthy p then acc ++ "```diff\n" ++ pyStr p ++ "\n```\n\n" else acc
          | none => acc
        | _ => acc
      pure acc)
    (md ++ "## File Changes\n\n")
  let rel ← require data "related_items"
  let md ← if pyTruthy rel then do
      let ritems ← pyIter rel
      pure (md ++ "## Related Items\n\n" ++
        String.join (ritems.map (fun item => "* " ++ pyStr item ++ "\n")))
    else pure md
  return md

/-- `convert_to_markdown` (cli.py lines 65-70): dispatch on `data["type"]`;
any value other than the string `"issue"` takes the pull-request branch. -/
def convert_to_markdown (data : List (String × Val)) : Except PyErr String := do
  let t ← require data "type"
  match t with
  | .vstr "issue" => convert_issue_to_markdown data
  | _ => convert_pr_to_markdown data

/-- The exit codes of `main` (cli.py lines 53-63): `FirecrawlError` exits 2,
`ValueError` exits 1, any other exception exits 3. -/
def exitCodeFor : PyErr → Nat
  | .firecrawl _ => 2
  | .valueError _ => 1
  | _ => 3


lemma traverseF_visited (fetch : String → Except PyErr Artifact)
    (include_types : Option (List String)) (fuel : Nat) (url : String)
    (visited : List String) (h : url ∈ visited) :
    traverseF fetch include_types fuel url visited = .ok (none, visited) := by
  rw [traverseF]
  simp [h]

lemma traverseF_fetch_error (fetch : String → Except PyErr Artifact)
    (include_types : Option (List String)) (fuel : Nat) (url : String)
    (visited : List String) (e : PyErr)
    (h1 : url ∉ visited) (h2 : fetch url = .error e) :
    traverseF fetch include_types fuel url visited = .error (e, url :: visited) := by
  rw [traverseF]
  simp [h1, h2]

lemma traverseF_ok_zero (fetch : String → Except PyErr Artifact)
    (include_types : Option (List String)) (url : String)
    (visited : List String) (rec : Artifact)
    (h1 : url ∉ visited) (h2 : fetch url = .ok rec) :
    traverseF fetch include_types 0 url visited =
      .ok (some (format_for_llm rec), url :: visited) := by
  rw [traverseF]
  simp [h1, h2]

lemma traverseF_ok_succ (fetch : String → Except PyErr Artifact)
    (include_types : Option (List String)) (k : Nat) (url : String)
    (visited : List String) (rec : Artifact)
    (h1 : url ∉ visited) (h2 : fetch url = .ok rec) :
    traverseF fetch include_types (k + 1) url visited =
      .ok (some (dictSet (format_for_llm rec) "related_items"
            (.vlist (rec.related_items.foldl
              (stepF (fun u w => traverseF fetch include_types k u w) include_types)
              ([], url :: visited)).1)),
          (rec.related_items.foldl
            (stepF (fun u w => traverseF fetch include_types k u w) include_types)
            ([], url :: visited)).2) := by
  rw [traverseF]
  simp [h1, h2]

lemma dictGet_dictSet_self (d : List (String × Val)) (key : String) (v : Val) :
    dictGet (dictSet d key v) key = some v := by
  induction d with
  | nil => simp [dictSet, dictGet]
  | cons kv rest ih =>
    by_cases h : kv.1 = key
    · simp [dictSet, dictGet, h]
    · simp [dictSet, dictGet, h, ih]

/-- How one iteration of the related-items loop renders an item, as a
function of the active type filter: a reference whose type is excluded by
the filter is kept with `content: None` exactly; a reference whose type
passes the filter is kept either annotated `[already visited]` with
`content: None`, or annotated `[error: ...]` with `content: None`, or with
its expanded content.  In every case the entry is kept, never dropped. -/
def entryRel (include_types : Option (List String)) (e : Val)
    (item : RelatedItem) : Prop :=
  (typeExcluded include_types item.type = true ∧
    e = entryOf (refString item) Val.vnull) ∨
  (typeExcluded include_types item.type = false ∧
    (e = entryOf (refString item ++ " [already visited]") Val.vnull ∨
     (∃ m, e = entryOf (refString item ++ " [error: " ++ m ++ "]") Val.vnull) ∨
     (∃ c, e = entryOf (refString item) c)))

lemma stepF_appends (trav : String → List String →
      Except (PyErr × List String) (Option (List (String × Val)) × List String))
    (include_types : Option (List String)) (acc : List Val × List String)
    (item : RelatedItem) :
    ∃ e v2, stepF trav include_types acc item = (acc.1 ++ [e], v2) ∧
      entryRel include_types e item := by
  cases h1 : typeExcluded include_types item.type with
  | true =>
    exact ⟨entryOf (refString item) Val.vnull, acc.2,
      by simp [stepF, h1], Or.inl ⟨h1, rfl⟩⟩
  | false =>
    by_cases h2 : item.url ∈ acc.2
    · exact ⟨entryOf (refString item ++ " [already visited]") Val.vnull, acc.2,
        by simp [stepF, h1, h2], Or.inr ⟨h1, Or.inl rfl⟩⟩
    · cases h3 : trav item.url acc.2 with
      | ok p =>
        obtain ⟨rc, v2⟩ := p
        exact ⟨entryOf (refString item) (contentVal rc), v2,
          by simp [stepF, h1, h2, h3], Or.inr ⟨h1, Or.inr (Or.inr ⟨contentVal rc, rfl⟩)⟩⟩
      | error p =>
        obtain ⟨e, v2⟩ := p
        exact ⟨entryOf (refString item ++ " [error: " ++ e.msg ++ "]") Val.vnull, v2,
          by simp [stepF, h1, h2, h3], Or.inr ⟨h1, Or.inr (Or.inl ⟨e.msg, rfl⟩)⟩⟩

lemma foldl_stepF_spec (trav : String → List String →
      Except (PyErr × List String) (Option (List (String × Val)) × List String))
    (include_types : Option (List String)) :
    ∀ (items : List RelatedItem) (acc : List Val × List String),
      ∃ tail, (items.foldl (stepF trav include_types) acc).1 = acc.1 ++ tail ∧
        List.Forall₂ (entryRel include_types) tail items := by
  intro items
  induction items with
  | nil => intro acc; exact ⟨[], by simp, List.Forall₂.nil⟩
  | cons item rest ih =>
    intro acc
    obtain ⟨e, v2, he, hrel⟩ := stepF_appends trav include_types acc item
    obtain ⟨tail, h1, h2⟩ := ih (stepF trav include_types acc item)
    refine ⟨e :: tail, ?_, List.Forall₂.cons hrel h2⟩
    rw [List.foldl_cons, h1, he]
    simp

/-- `[...] if content.related_items else []` equals the plain comprehension. -/
lemma ifEmptyMap (ri : List RelatedItem) (f : RelatedItem → Val) :
    (if ri.isEmpty then ([] : List Val) else ri.map f) = ri.map f := by
  cases ri <;> simp

lemma format_related_items (rec : Artifact) :
    dictGet (format_for_llm rec) "related_items" =
      some (.vlist (rec.related_items.map (fun item => entryOf (refString item) .vnull))) := by
  cases rec with
  | issue d =>
    have h : dictGet (format_for_llm (.issue d)) "related_items" =
        some (.vlist (if d.related_items.isEmpty then []
          else d.related_items.map (fun item => entryOf (refString item) .vnull))) := rfl
    rw [h, ifEmptyMap]
    rfl
  | pr d =>
    have h : dictGet (format_for_llm (.pr d)) "related_items" =
        some (.vlist (if d.related_items.isEmpty then []
          else d.related_items.map (fun item => entryOf (refString item) .vnull))) := rfl
    rw [h, ifEmptyMap]
    rfl

lemma typeExcluded_some_nil (t : String) :
    typeExcluded (some []) t = typeExcluded none t := by
  simp [typeExcluded]

lemma traverseF_empty_filter (fuel : Nat) :
    ∀ (fetch : String → Except PyErr Artifact) (url : String) (visited : List String),
      traverseF fetch (some []) fuel url visited = traverseF fetch none fuel url visited := by
  induction fuel with
  | zero =>
    intro fetch url visited
    by_cases hv : url ∈ visited
    · rw [traverseF_visited _ _ _ _ _ hv, traverseF_visited _ _ _ _ _ hv]
    · cases hf : fetch url with
      | error e =>
        rw [traverseF_fetch_error _ _ _ _ _ _ hv hf, traverseF_fetch_error _ _ _ _ _ _ hv hf]
      | ok rec =>
        rw [traverseF_ok_zero _ _ _ _ _ hv hf, traverseF_ok_zero _ _ _ _ _ hv hf]
  | succ k ih =>
    intro fetch url visited
    by_cases hv : url ∈ visited
    · rw [traverseF_visited _ _ _ _ _ hv, traverseF_visited _ _ _ _ _ hv]
    · cases hf : fetch url with
      | error e =>
        rw [traverseF_fetch_error _ _ _ _ _ _ hv hf, traverseF_fetch_error _ _ _ _ _ _ hv hf]
      | ok rec =>
        rw [traverseF_ok_succ _ _ _ _ _ _ hv hf, traverseF_ok_succ _ _ _ _ _ _ hv hf]
        have hstep : stepF (fun u w => traverseF fetch (some []) k u w) (some []) =
            stepF (fun u w => traverseF fetch none k u w) none := by
          funext acc item
          simp only [stepF, typeExcluded_some_nil, ih]
        rw [hstep]

set_option maxRecDepth 100000

/-!  ### Fixtures for claim C1 (cycle safety)  -/

def urlA1 : String := "https://github.com/o/r/issues/1"
def urlB1 : String := "https://github.com/o/r/issues/2"
def itemToB1 : RelatedItem := { type := "issue", number := some 2, title := some "B", url := urlB1 }
def itemToA1 : RelatedItem := { type := "issue", number := some 1, title := some "A", url := urlA1 }
def recA1 : Artifact := .issue
  { title := "A", number := 1, state := "open", author := "u", created_at := "t1",
    updated_at := "t1", comments := [], labels := [], related_items := [itemToB1] }
def recB1 : Artifact := .issue
  { title := "B", number := 2, state := "open", author := "u", created_at := "t2",
    updated_at := "t2", comments := [], labels := [], related_items := [itemToA1] }
def eiC1 : String → Except PyErr Artifact := fun u =>
  if u = urlA1 then .ok recA1
  else if u = urlB1 then .ok recB1
  else .error (.firecrawl "missing")
def epC1 : String → Except PyErr Artifact := fun _ => .error (.firecrawl "missing")

/-- The document produced for the cyclic graph A → B → A at depth 5. -/
def docAB1 : List (String × Val) :=
  [("type", .vstr "issue"),
   ("title", .vstr "A"),
   ("number", .vint 1),
   ("state", .vstr "open"),
   ("author", .vstr "u"),
   ("created_at", .vstr "t1"),
   ("conversation", .vlist []),
   ("labels", .vlist []),
   ("related_items", .vlist
     [entryOf "issue 2: B (https://github.com/o/r/issues/2)" (.vdict
       [("type", .vstr "issue"),
        ("title", .vstr "B"),
        ("number", .vint 2),
        ("state", .vstr "open"),
        ("author", .vstr "u"),
        ("created_at", .vstr "t2"),
        ("conversation", .vlist []),
        ("labels", .vlist []),
        ("related_items", .vlist
          [entryOf "issue 1: A (https://github.com/o/r/issues/1) [already visited]"
            .vnull])])])]

/-- Claim C1: within one top-level call of `extract_content_with_related`
no URL is expanded more than once: (i) a call whose URL is already in the
visited set returns `None` immediately; (ii) the URL is inserted into the
visited set before the fetch, so even a failing fetch leaves it visited;
(iii) the cyclic graph A → B → A with `max_depth = 5` terminates, rendering
B's reference back to A as `[already visited]` with `content: None`. -/
theorem claim_C1_no_reexpansion :
    (∀ (ep ei : String → Except PyErr Artifact) (url : String) (max_depth : Int)
        (include_types : Option (List String)) (visited : List String),
        url ∈ visited →
        extract_content_with_related ep ei url max_depth include_types visited =
          .ok (none, visited)) ∧
    (∀ (ep ei : String → Except PyErr Artifact) (url : String) (max_depth : Int)
        (include_types : Option (List String)) (visited : List String) (e : PyErr),
        url ∉ visited →
        extract_content ep ei url = .error e →
        ∃ v2, extract_content_with_related ep ei url max_depth include_types visited =
            .error (e, v2) ∧ url ∈ v2) ∧
    extract_content_with_related epC1 eiC1 urlA1 5 none [] =
      .ok (some docAB1, [urlB1, urlA1]) := by
  refine ⟨?_, ?_, ?_⟩
  · intro ep ei url max_depth include_types visited h
    exact traverseF_visited _ _ _ _ _ h
  · intro ep ei url max_depth include_types visited e h1 h2
    exact ⟨url :: visited, traverseF_fetch_error _ _ _ _ _ _ h1 h2, by simp⟩
  · rfl

/-- Witness for C1: parts (i) and (ii) instantiated at concrete inputs. -/
theorem claim_C1_no_reexpansion_witness :
    extract_content_with_related epC1 eiC1 urlA1 3 none [urlA1] = .ok (none, [urlA1]) ∧
    ∃ v2, extract_content_with_related epC1 eiC1 "not-github" 3 none [] =
        .error (.valueError "URL must be a GitHub URL", v2) ∧ "not-github" ∈ v2 :=
  ⟨claim_C1_no_reexpansion.1 epC1 eiC1 urlA1 3 none [urlA1] (by simp),
   claim_C1_no_reexpansion.2.1 epC1 eiC1 "not-github" 3 none []
     (.valueError "URL must be a GitHub URL") (by simp) (by rfl)⟩

/-- Claim C2: for every fetched record and every `max_depth > 0`, the
`related_items` list of the result has exactly the length and order of the
record's `related_items`; pointwise (via `entryRel include_types`): a
reference excluded by the type filter is kept with `content: None`, an
already-visited reference is kept annotated with `content: None`, a failed
branch is kept annotated with `content: None`, and an expanded reference is
kept with its content — no entry is ever removed. -/
theorem claim_C2_related_preserved :
    ∀ (ep ei : String → Except PyErr Artifact) (url : String) (max_depth : Int)
      (include_types : Option (List String)) (visited : List String) (rec : Artifact),
      url ∉ visited →
      extract_content ep ei url = .ok rec →
      0 < max_depth →
      ∃ doc v2 entries,
        extract_content_with_related ep ei url max_depth include_types visited =
          .ok (some doc, v2) ∧
        dictGet doc "related_items" = some (.vlist entries) ∧
        entries.length = rec.related_items.length ∧
        List.Forall₂ (entryRel include_types) entries rec.related_items := by
  intro ep ei url max_depth include_types visited rec h1 h2 h3
  have hk : max_depth.toNat = (max_depth.toNat - 1) + 1 := by omega
  unfold extract_content_with_related
  rw [hk, traverseF_ok_succ _ _ _ _ _ _ h1 h2]
  obtain ⟨tail, ht1, ht2⟩ := foldl_stepF_spec
    (fun u w => traverseF (extract_content ep ei) include_types (max_depth.toNat - 1) u w)
    include_types rec.related_items ([], url :: visited)
  refine ⟨_, _, tail, rfl, ?_, ?_, ht2⟩
  · rw [ht1]
    simp [dictGet_dictSet_self]
  · exact ht2.length_eq

def urlC2 : String := "https://github.com/o/r/issues/3"
def urlC2b : String := "https://github.com/o/r/issues/6"
def itemCommitC2 : RelatedItem :=
  { type := "commit", number := none, title := none,
    url := "https://github.com/o/r/commit/abc" }
def itemIssueC2 : RelatedItem :=
  { type := "issue", number := some 6, title := some "leaf", url := urlC2b }
def recC2 : Artifact := .issue
  { title := "C", number := 3, state := "open", author := "u", created_at := "t3",
    updated_at := "t3", comments := [], labels := [],
    related_items := [itemCommitC2, itemIssueC2] }
def recC2b : Artifact := .issue
  { title := "leaf", number := 6, state := "open", author := "u", created_at := "t6",
    updated_at := "t6", comments := [], labels := [], related_items := [] }
def eiC2 : String → Except PyErr Artifact := fun u =>
  if u = urlC2 then .ok recC2
  else if u = urlC2b then .ok recC2b
  else .error (.firecrawl "missing")
def epC2 : String → Except PyErr Artifact := fun _ => .error (.firecrawl "missing")

/-- Witness for C2 with an active type filter `include_types = ["issue"]`:
the record has a commit reference (excluded by the filter) and an issue
reference (expanded); the theorem applies, and the concrete run confirms the
filtered commit entry is kept with `content: None` while the issue sibling
is kept fully expanded. -/
theorem claim_C2_related_preserved_witness :
    typeExcluded (some ["issue"]) "commit" = true ∧
    (∃ doc v2 entries,
      extract_content_with_related epC2 eiC2 urlC2 1 (some ["issue"]) [] =
        .ok (some doc, v2) ∧
      dictGet doc "related_items" = some (.vlist entries) ∧
      entries.length = recC2.related_items.length ∧
      List.Forall₂ (entryRel (some ["issue"])) entries recC2.related_items) ∧
    extract_content_with_related epC2 eiC2 urlC2 1 (some ["issue"]) [] =
      .ok (some
        [("type", .vstr "issue"),
         ("title", .vstr "C"),
         ("number", .vint 3),
         ("state", .vstr "open"),
         ("author", .vstr "u"),
         ("created_at", .vstr "t3"),
         ("conversation", .vlist []),
         ("labels", .vlist []),
         ("related_items", .vlist
           [entryOf "commit None:  (https://github.com/o/r/commit/abc)" .vnull,
            entryOf "issue 6: leaf (https://github.com/o/r/issues/6)" (.vdict
              [("type", .vstr "issue"),
               ("title", .vstr "leaf"),
               ("number", .vint 6),
               ("state", .vstr "open"),
               ("author", .vstr "u"),
               ("created_at", .vstr "t6"),
               ("conversation", .vlist []),
               ("labels", .vlist []),
               ("related_items", .vlist [])])])],
        [urlC2b, urlC2]) := by
  refine ⟨rfl, ?_, by rfl⟩
  exact claim_C2_related_preserved epC2 eiC2 urlC2 1 (some ["issue"]) [] recC2
    (by simp) (by rfl) (by omega)

/-- Claim C3: for a URL not already visited and any depth `d ≤ 0`, the
traversal returns the formatted shell of the fetched record unmodified, and
in that shell every related-item entry has `content: None`. -/
theorem claim_C3_depth_zero_shell :
    ∀ (ep ei : String → Except PyErr Artifact) (url : String) (max_depth : Int)
      (include_types : Option (List String)) (visited : List String) (rec : Artifact),
      url ∉ visited →
      extract_content ep ei url = .ok rec →
      max_depth ≤ 0 →
      extract_content_with_related ep ei url max_depth include_types visited =
        .ok (some (format_for_llm rec), url :: visited) ∧
      dictGet (format_for_llm rec) "related_items" =
        some (.vlist (rec.related_items.map (fun item => entryOf (refString item) .vnull))) := by
  intro ep ei url max_depth include_types visited rec h1 h2 h3
  have hk : max_depth.toNat = 0 := by omega
  refine ⟨?_, format_related_items rec⟩
  unfold extract_content_with_related
  rw [hk, traverseF_ok_zero _ _ _ _ _ h1 h2]

def urlC3 : String := "https://github.com/o/r/issues/4"
def recC3 : Artifact := .issue
  { title := "D", number := 4, state := "open", author := "u", created_at := "t4",
    updated_at := "t4", comments := [], labels := [],
    related_items := [{ type := "PR", number := some 5, title := some "fix",
                        url := "https://github.com/o/r/pull/5" }] }
def eiC3 : String → Except PyErr Artifact := fun u =>
  if u = urlC3 then .ok recC3 else .error (.firecrawl "missing")
def epC3 : String → Except PyErr Artifact := fun _ => .error (.firecrawl "missing")

/-- Witness for C3 at depth 0 on a concrete record. -/
theorem claim_C3_depth_zero_shell_witness :
    extract_content_with_related epC3 eiC3 urlC3 0 none [] =
      .ok (some (format_for_llm recC3), [urlC3]) ∧
    dictGet (format_for_llm recC3) "related_items" =
      some (.vlist (recC3.related_items.map (fun item => entryOf (refString item) .vnull))) :=
  claim_C3_depth_zero_shell epC3 eiC3 urlC3 0 none [] recC3 (by simp) (by rfl) (by omega)

/-!  ### Fixtures for claim C4 (branch failure containment)  -/

def urlR4 : String := "https://github.com/o/r/issues/9"
def urlX4 : String := "https://github.com/o/r/issues/10"
def urlY4 : String := "https://github.com/o/r/issues/11"
def itemX4 : RelatedItem := { type := "issue", number := some 10, title := some "X", url := urlX4 }
def itemY4 : RelatedItem := { type := "issue", number := some 11, title := some "Y", url := urlY4 }
def recR4 : Artifact := .issue
  { title := "R", number := 9, state := "open", author := "u", created_at := "t9",
    updated_at := "t9", comments := [], labels := [], related_items := [itemX4, itemY4] }
def recY4 : Artifact := .issue
  { title := "Y", number := 11, state := "open", author := "u", created_at := "t11",
    updated_at := "t11", comments := [], labels := ["bug"], related_items := [] }
def eiC4 : String → Except PyErr Artifact := fun u =>
  if u = urlR4 then .ok recR4
  else if u = urlX4 then .error (.firecrawl "boom")
  else if u = urlY4 then .ok recY4
  else .error (.firecrawl "missing")
def epC4 : String → Except PyErr Artifact := fun _ => .error (.firecrawl "missing")

/-- Expected result for root R with children X (fetch fails) and Y
(fetch succeeds) at depth 1. -/
def docR4 : List (String × Val) :=
  [("type", .vstr "issue"),
   ("title", .vstr "R"),
   ("number", .vint 9),
   ("state", .vstr "open"),
   ("author", .vstr "u"),
   ("created_at", .vstr "t9"),
   ("conversation", .vlist []),
   ("labels", .vlist []),
   ("related_items", .vlist
     [entryOf "issue 10: X (https://github.com/o/r/issues/10) [error: boom]" .vnull,
      entryOf "issue 11: Y (https://github.com/o/r/issues/11)" (.vdict
        [("type", .vstr "issue"),
         ("title", .vstr "Y"),
         ("number", .vint 11),
         ("state", .vstr "open"),
         ("author", .vstr "u"),
         ("created_at", .vstr "t11"),
         ("conversation", .vlist []),
         ("labels", .vlist [.vstr "bug"]),
         ("related_items", .vlist [])])])]

/-- Claim C4: (i) a fetch failure on the root call propagates to the caller
as the classified error; (ii) a fetch failure while expanding a non-root
related item is caught at the parent: the loop step keeps the reference with
an error annotation appended and `content: None`, and processing continues
with the remaining siblings; (iii) concretely, root R with children X
(fails) and Y (succeeds) at depth 1 yields X annotated as failed and Y
fully expanded. -/
theorem claim_C4_branch_failure_contained :
    (∀ (ep ei : String → Except PyErr Artifact) (url : String) (max_depth : Int)
        (include_types : Option (List String)) (visited : List String) (e : PyErr),
        url ∉ visited →
        extract_content ep ei url = .error e →
        extract_content_with_related ep ei url max_depth include_types visited =
          .error (e, url :: visited)) ∧
    (∀ (trav : String → List String →
          Except (PyErr × List String) (Option (List (String × Val)) × List String))
        (include_types : Option (List String)) (acc : List Val × List String)
        (item : RelatedItem) (e : PyErr) (v2 : List String),
        typeExcluded include_types item.type = false →
        item.url ∉ acc.2 →
        trav item.url acc.2 = .error (e, v2) →
        stepF trav include_types acc item =
          (acc.1 ++ [entryOf (refString item ++ " [error: " ++ e.msg ++ "]") .vnull], v2)) ∧
    extract_content_with_related epC4 eiC4 urlR4 1 none [] =
      .ok (some docR4, [urlY4, urlX4, urlR4]) := by
  refine ⟨?_, ?_, ?_⟩
  · intro ep ei url max_depth include_types visited e h1 h2
    exact traverseF_fetch_error _ _ _ _ _ _ h1 h2
  · intro trav include_types acc item e v2 h1 h2 h3
    simp [stepF, h1, h2, h3]
  · rfl

/-- Witness for C4: parts (i) and (ii) at concrete inputs. -/
theorem claim_C4_branch_failure_contained_witness :
    extract_content_with_related epC4 eiC4 urlX4 1 none [] =
      .error (.firecrawl "boom", [urlX4]) ∧
    stepF (fun _ _ => .error (.firecrawl "boom", ["v"])) none ([], []) itemX4 =
      ([entryOf (refString itemX4 ++ " [error: boom]") .vnull], ["v"]) :=
  ⟨claim_C4_branch_failure_contained.1 epC4 eiC4 urlX4 1 none [] (.firecrawl "boom")
      (by simp) (by rfl),
   claim_C4_branch_failure_contained.2.1 (fun _ _ => .error (.firecrawl "boom", ["v"]))
      none ([], []) itemX4 (.firecrawl "boom") ["v"] (by rfl) (by simp) (by rfl)⟩

/-- Claim C8: `format_for_llm` is a pure, deterministic function of the
record it is given: formatting the same record twice (no mutation is even
expressible between the calls) yields identical output. -/
theorem claim_C8_format_deterministic :
    ∀ (rec : Artifact), format_for_llm rec = format_for_llm rec :=
  fun _ => rfl

/-- Claim C9: passing `include_types = []` (the empty list) behaves exactly
like passing no filter at all: the exclusion test never fires and the whole
traversal is unchanged, for every input — references are all expanded
rather than all filtered out. -/
theorem claim_C9_empty_filter :
    (∀ (t : String), typeExcluded (some []) t = false) ∧
    ∀ (ep ei : String → Except PyErr Artifact) (url : String) (max_depth : Int)
      (visited : List String),
      extract_content_with_related ep ei url max_depth (some []) visited =
        extract_content_with_related ep ei url max_depth none visited := by
  refine ⟨fun t => by simp [typeExcluded], ?_⟩
  intro ep ei url max_depth visited
  unfold extract_content_with_related
  exact traverseF_empty_filter max_depth.toNat (extract_content ep ei) url visited

/-!  ### Fixtures for claim C5 (URL classification)  -/

/-- A GitHub URL whose repository is named `pull`: it contains both the
pull-request path segment `/pull/` and the issue path segment `/issues/`. -/
def urlC5 : String := "https://github.com/owner/pull/issues/7"
def epC5 : String → Except PyErr Artifact := fun _ => .error (.firecrawl "ROUTED-TO-PR")
def eiC5 : String → Except PyErr Artifact := fun _ => .error (.firecrawl "ROUTED-TO-ISSUE")

/-- Counterexample to C5 as stated: `urlC5` contains an issue path segment,
yet `extract_content` routes it to the pull-request extractor, not the issue
extractor, because the `/pull/` test runs first. -/
theorem claim_C5_counterexample :
    strContains urlC5 "/issues/" = true ∧
    strContains urlC5 "/pull/" = true ∧
    extract_content epC5 eiC5 urlC5 = .error (.firecrawl "ROUTED-TO-PR") ∧
    extract_content epC5 eiC5 urlC5 ≠ .error (.firecrawl "ROUTED-TO-ISSUE") := by
  refine ⟨rfl, rfl, rfl, ?_⟩
  intro h
  rw [show extract_content epC5 eiC5 urlC5 =
      Except.error (PyErr.firecrawl "ROUTED-TO-PR") from rfl] at h
  simp at h

/-- Claim C5, amended: for every URL, (i) a URL not starting with the GitHub
host prefix fails with `ValueError` regardless of the network collaborators
(so before any network call); (ii) a GitHub URL containing `/pull/` is
dispatched to the pull-request extractor — even if it also contains
`/issues/`; (iii) a GitHub URL containing `/issues/` but not `/pull/` is
dispatched to the issue extractor; (iv) any other GitHub URL fails with
`ValueError` regardless of the network collaborators. -/
theorem claim_C5_classification_amended :
    (∀ (ep ei : String → Except PyErr Artifact) (url : String),
        strStartsWith url "https://github.com/" = false →
        extract_content ep ei url = .error (.valueError "URL must be a GitHub URL")) ∧
    (∀ (ep ei : String → Except PyErr Artifact) (url : String),
        strStartsWith url "https://github.com/" = true →
        strContains url "/pull/" = true →
        extract_content ep ei url = ep url) ∧
    (∀ (ep ei : String → Except PyErr Artifact) (url : String),
        strStartsWith url "https://github.com/" = true →
        strContains url "/pull/" = false →
        strContains url "/issues/" = true →
        extract_content ep ei url = ei url) ∧
    (∀ (ep ei : String → Except PyErr Artifact) (url : String),
        strStartsWith url "https://github.com/" = true →
        strContains url "/pull/" = false →
        strContains url "/issues/" = false →
        extract_content ep ei url =
          .error (.valueError "URL must point to a GitHub issue or pull request")) := by
  refine ⟨?_, ?_, ?_, ?_⟩
  · intro ep ei url h1
    simp [extract_content, h1]
  · intro ep ei url h1 h2
    simp [extract_content, h1, h2]
  · intro ep ei url h1 h2 h3
    simp [extract_content, h1, h2, h3]
  · intro ep ei url h1 h2 h3
    simp [extract_content, h1, h2, h3]

/-- Witness for the amended C5: all four cases at concrete URLs. -/
theorem claim_C5_classification_amended_witness :
    extract_content epC5 eiC5 "https://gitlab.com/a/b/pull/1" =
      .error (.valueError "URL must be a GitHub URL") ∧
    extract_content epC5 eiC5 "https://github.com/a/b/pull/1" =
      epC5 "https://github.com/a/b/pull/1" ∧
    extract_content epC5 eiC5 "https://github.com/a/b/issues/1" =
      eiC5 "https://github.com/a/b/issues/1" ∧
    extract_content epC5 eiC5 "https://github.com/a/b/wiki" =
      .error (.valueError "URL must point to a GitHub issue or pull request") :=
  ⟨claim_C5_classification_amended.1 epC5 eiC5 "https://gitlab.com/a/b/pull/1" (by rfl),
   claim_C5_classification_amended.2.1 epC5 eiC5 "https://github.com/a/b/pull/1"
     (by rfl) (by rfl),
   claim_C5_classification_amended.2.2.1 epC5 eiC5 "https://github.com/a/b/issues/1"
     (by rfl) (by rfl) (by rfl),
   claim_C5_classification_amended.2.2.2 epC5 eiC5 "https://github.com/a/b/wiki"
     (by rfl) (by rfl) (by rfl)⟩

/-!  ### Fixtures for claim C6 (commit rendering)  -/

def commitC6 : Commit :=
  { message := "Fix bug", author := "alice", created_at := "2024-01-01",
    url := "https://github.com/o/r/commit/abcdef1234567890" }
def prC6 : PRData :=
  { title := "P", number := 1, state := "open", author := "u", created_at := "t",
    updated_at := "t", merged_at := none, comments := [], commits := [commitC6],
    file_changes := none, labels := [], related_items := [] }

/-- Counterexample to C6: the formatter renders the commit as
`"Fix bug (by alice on 2024-01-01)"`, and no 7-character string can be
prepended with `": "` to the message to make the claimed
`"{short_sha}: {message} (by {author} on {created_at})"` shape equal to it
(the lengths differ by 9). -/
theorem claim_C6_counterexample :
    dictGet (format_for_llm (.pr prC6)) "commits" =
      some (.vlist [.vstr "Fix bug (by alice on 2024-01-01)"]) ∧
    ¬ ∃ sha : String, sha.length = 7 ∧
        "Fix bug (by alice on 2024-01-01)" =
          sha ++ ": " ++ "Fix bug" ++ " (by alice on 2024-01-01)" := by
  refine ⟨rfl, ?_⟩
  rintro ⟨sha, h7, heq⟩
  have hl := congrArg String.length heq
  rw [String.length_append, String.length_append, String.length_append, h7] at hl
  rw [show ("Fix bug (by alice on 2024-01-01)" : String).length = 32 from rfl,
      show (": " : String).length = 2 from rfl,
      show ("Fix bug" : String).length = 7 from rfl,
      show (" (by alice on 2024-01-01)" : String).length = 25 from rfl] at hl
  omega

/-- Claim C6, amended: each commit of a pull-request record is rendered as
`"{message} (by {author} on {created_at})"`; the `Commit` model has no hash
field, so no short-SHA prefix is (or can be) rendered. -/
theorem claim_C6_commit_render_amended :
    ∀ (d : PRData),
      dictGet (format_for_llm (.pr d)) "commits" =
        some (.vlist (d.commits.map (fun c => .vstr (commitLine c)))) ∧
      ∀ (c : Commit), commitLine c =
        c.message ++ " (by " ++ c.author ++ " on " ++ c.created_at ++ ")" :=
  fun _ => ⟨rfl, fun _ => rfl⟩

/-!  ### Fixtures for claim C7 (diff-retrieval failure handling)  -/

def urlC7 : String := "https://github.com/o/r/pull/1"
def prC7 : Artifact := .pr
  { title := "P", number := 1, state := "open", author := "u", created_at := "t",
    updated_at := "t", merged_at := none, comments := [], commits := [],
    file_changes := none, labels := [], related_items := [] }

/-- The raw-diff GET fails on the first attempt and succeeds on the second. -/
def httpC7 : Nat → String → Bool × String :=
  fun i _ => if i == 0 then (false, "boom") else (true, "DIFF")

/-- Counterexample to C7: (i) the first attempt's diff fetch fails (it is a
diff-retrieval failure, an in-`try` `ValueError`); (ii) yet `extract_pr`
succeeds overall — the failure was retried and did not surface; (iii) when
the diff fetch fails on every attempt, the surfaced error is a
`FirecrawlError` built by the same classification used for
structured-extraction failures, not a distinct failure kind. -/
theorem claim_C7_counterexample :
    get_da_diff (httpC7 0) urlC7 = .error (.valueError "Failed to retrieve diff: boom") ∧
    extract_pr (fun _ => .ok prC7) httpC7 urlC7 = .ok (prC7.setFileChanges "DIFF") ∧
    extract_pr (fun _ => .ok prC7) (fun _ _ => (false, "boom")) urlC7 =
      .error (.firecrawl
        "All 4 attempts failed. Last error: Error extracting PR: Failed to retrieve diff: boom") := by
  refine ⟨rfl, by rfl, by rfl⟩

/-- Claim C7, amended: a diff-retrieval failure inside `extract_pr` is
caught by the same `except` block as structured-extraction failures,
classified into the same `FirecrawlError` categories by substring match on
the message, and retried together with the whole `extract_pr` body up to 4
attempts; only after exhaustion does it surface, wrapped as a
`FirecrawlError`. -/
theorem claim_C7_diff_failure_amended :
    ∀ (t : String) (r : Artifact),
      strContains ("Failed to retrieve diff: " ++ t) "500" = false →
      strContains ("Failed to retrieve diff: " ++ t) "429" = false →
      strContains ("Failed to retrieve diff: " ++ t) "403" = false →
      strContains ("Failed to retrieve diff: " ++ t) "404" = false →
      extract_pr (fun _ => .ok r) (fun _ _ => (false, t)) urlC7 =
        .error (.firecrawl ("All 4 attempts failed. Last error: " ++
          ("Error extracting PR: " ++ ("Failed to retrieve diff: " ++ t)))) := by
  intro t r h500 h429 h403 h404
  have hd : get_da_diff (fun _ => (false, t)) urlC7 =
      .error (.valueError ("Failed to retrieve diff: " ++ t)) := rfl
  have hc : classify_pr urlC7 ("Failed to retrieve diff: " ++ t) =
      .firecrawl ("Error extracting PR: " ++ ("Failed to retrieve diff: " ++ t)) := by
    simp [classify_pr, h500, h429, h403, h404]
  have hE : extract_pr_once (.ok r) (fun _ => (false, t)) urlC7 =
      .error (.firecrawl ("Error extracting PR: " ++ ("Failed to retrieve diff: " ++ t))) := by
    rw [extract_pr_once, hd]
    simp [PyErr.msg, hc]
  unfold extract_pr retry_on_error
  simp only [retryGo, hE, hc, PyErr.msg]
  rfl

/-- Witness for the amended C7 at a concrete diff-failure text. -/
theorem claim_C7_diff_failure_amended_witness :
    extract_pr (fun _ => .ok prC7) (fun _ _ => (false, "no diff here")) urlC7 =
      .error (.firecrawl ("All 4 attempts failed. Last error: " ++
        ("Error extracting PR: " ++ ("Failed to retrieve diff: " ++ "no diff here")))) :=
  claim_C7_diff_failure_amended "no diff here" prC7 (by rfl) (by rfl) (by rfl) (by rfl)

/-- Claim C10: for every value produced by `format_for_llm`, the CLI
Markdown converter fails: it reads the `description` key, which the
formatter never emits, so it raises `KeyError` for every input — both the
issue branch and the pull-request branch — and `KeyError` maps to the
unexpected-error exit code 3. -/
theorem claim_C10_markdown_always_fails :
    ∀ (rec : Artifact),
      convert_to_markdown (format_for_llm rec) = .error (.keyError "description") ∧
      dictGet (format_for_llm rec) "description" = none ∧
      exitCodeFor (.keyError "description") = 3 := by
  intro rec
  refine ⟨?_, ?_, rfl⟩ <;> cases rec <;> rfl

end ScrapeGh
